import Mathlib

/-!
Verification development for the SecurePOS segregation system.

Shallow embedding of the segregation-system pipeline:
`SegregationSystemOrchestrator.run` (the phase-driven control loop),
`PreparedSessionController.sessions_count` / `store`,
`BalancingReport.__init__`, `CheckClassBalancing.retrieve_labels`, and
`SegregationSystemOrchestrator.receive`.

Conventions of the embedding:
* `run` is modelled per loop iteration (`runIteration`), in interactive mode
  (`service_flag = False`); the bodies guarded by `if service_flag:` in the
  source are therefore absent, exactly as they are skipped at runtime.
* The SQLite store is a list of rows; SQL `NULL` is `Option.none`;
  `to_process = 1` is `some true`.
* Python exceptions that the source can raise and never catches are an
  explicit `raise` outcome of the step.
* Components whose source files are not present (`CoverageReport`,
  `LearningSetsController.save_sets`, `CommunicationController.send_learning_sets`,
  the dataframe insert of `db_sqlite3`) are modelled from the spec and marked so.
-/

namespace SecurePOS

/-- The `operationMode` values of the orchestrator (the persisted pipeline
phase): `wait_sessions`, `check_balancing`, `generate_balancing_outcome`,
`check_coverage`, `generate_coverage_outcome`, `generate_sets`. -/
inductive Phase where
  | waitSessions
  | checkBalancing
  | generateBalancingOutcome
  | checkCoverage
  | generateCoverageOutcome
  | generateSets
deriving DecidableEq

/-- Uncaught Python exceptions (and the spec's error taxonomy for the modelled
adapters) that can escape the orchestrator's loop body. -/
inductive PyError where
  | attributeError
  | keyError
  | typeError
  | emptyInputError
  | dispatchError
deriving DecidableEq

/-- One row of the `prepared_sessions` table as created by the orchestrator:
identifier, label, and the `to_process` flag column (nullable, `none` = SQL
NULL). Feature columns are irrelevant to every claim and omitted. -/
structure SessionRow where
  uuid : String
  label : String
  toProcess : Option Bool
deriving DecidableEq

/-- The effect of `UPDATE prepared_sessions SET to_process = 1;` on the
stored rows. -/
def markAllToProcess (db : List SessionRow) : List SessionRow :=
  db.map fun r => { r with toProcess := some true }

/-- The rows selected by `WHERE to_process = 1`: the not-yet-processed
sessions. -/
def notYetProcessed (db : List SessionRow) : List SessionRow :=
  db.filter fun r => r.toProcess == some true

/-- `PreparedSessionController.sessions_count`: runs
`SELECT COUNT(*) FROM prepared_sessions;` — the number of all stored rows,
with no `WHERE` clause. -/
def sessionsCount (db : List SessionRow) : Nat := db.length

/-- `sessions_count` as a state-passing read: it returns the count and leaves
the store exactly as it was (a single read query, no writes). -/
def sessionsCountS (db : List SessionRow) : Nat × List SessionRow :=
  (db.length, db)

/-- A gate-decision artifact file as read by `BalancingReport` /
`CoverageReport`: whether the `approved` key is present (and its value), and
whether the detail key (`unbalanced_classes` resp.
`uncovered_features_suggestions`) is present. A file that is absent or not
decodable JSON is `Option.none` at the use site. -/
structure DecisionFile where
  approvedField : Option Bool
  detailField : Bool
deriving DecidableEq

/-- The attributes a gate report object ends up holding when its constructor
succeeds. -/
structure GateReport where
  approved : Bool
deriving DecidableEq

/-- `BalancingReport.__init__`: opens the outcome JSON. A missing or
undecodable file is caught and only printed, so `self.outcome` stays
unassigned and the following `self.outcome["approved"]` raises
`AttributeError`; a decoded file lacking `approved` or `unbalanced_classes`
raises `KeyError` at the subscription. The exceptions are not caught anywhere
in the orchestrator. -/
def balancingReportE : Option DecisionFile → Except PyError GateReport
  | none => .error .attributeError
  | some f =>
    match f.approvedField with
    | none => .error .keyError
    | some a => if f.detailField then .ok ⟨a⟩ else .error .keyError

/-- Modelled from the spec: `CoverageReport` (module `InputCoverage`, not in
the sources) reads the coverage outcome artifact
`{approved, uncovered_features_suggestions}` the same way `BalancingReport`
reads the balancing one. -/
def coverageReportE : Option DecisionFile → Except PyError GateReport
  | none => .error .attributeError
  | some f =>
    match f.approvedField with
    | none => .error .keyError
    | some a => if f.detailField then .ok ⟨a⟩ else .error .keyError

/-- Python dict assignment `d[k] = v`: overwrite the value when the key is
present, append the binding otherwise. -/
def dictInsert (d : List (String × Nat)) (k : String) (v : Nat) :
    List (String × Nat) :=
  if d.any fun p => p.1 == k then
    d.map fun p => if p.1 == k then (k, v) else p
  else d ++ [(k, v)]

/-- `CheckClassBalancing.retrieve_labels`: iterates the grouped-label rows
`(label, samples)` coming from the data extractor and builds the
`labels_stat` dictionary by `dictionary[row.label] = row.samples`. -/
def retrieve_labels (rows : List (String × Nat)) : List (String × Nat) :=
  rows.foldl (fun d row => dictInsert d row.1 row.2) []

/-- `retrieve_labels` with an explicit error channel: the Python body is a
plain loop of dict assignments and can raise nothing, so it always returns
normally. -/
def retrieveLabelsE (rows : List (String × Nat)) :
    Except PyError (List (String × Nat)) :=
  .ok ( retrieve_labels rows)

/-- One prepared session of an incoming batch, with the fields of the
ingestion schema (identifier and label; feature fields omitted). The schema
has no processed marker. -/
structure IncomingSession where
  uuid : String
  label : String
deriving DecidableEq

/-- The row a stored incoming session becomes: the dataframe built from the
batch has no `to_process` column, so that column of the inserted row is SQL
NULL. -/
def insertRow (s : IncomingSession) : SessionRow :=
  ⟨s.uuid, s.label, none⟩

/-- `PreparedSessionController.store(path)`: loads the batch, validates it
against the schema (`validate_json_data_file`, abstracted as a boolean
validation function) and returns `False` without touching the table when
validation fails; otherwise inserts the batch as a dataframe.
The dataframe insert (`db_sqlite3.insert_dataframe`, not in the sources) is
modelled from the spec: a transactional append that fails on a `uuid`
primary-key collision and leaves absent columns NULL. -/
def store (validateFn : List IncomingSession → Bool)
    (batch : List IncomingSession) (db : List SessionRow) :
    Bool × List SessionRow :=
  if !validateFn batch then (false, db)
  else if (db.map SessionRow.uuid ++ batch.map IncomingSession.uuid).Nodup then
    (true, db ++ batch.map insertRow)
  else (false, db)

/-- A Python runtime value passed as a positional argument. -/
inductive PyVal where
  | str (s : String)
  | int (n : Nat)
deriving DecidableEq

/-- The parameter list of `PreparedSessionController.store` besides `self`:
`def store(self, path)`. -/
def storeParams : List String := ["path"]

/-- The positional arguments `receive` passes to `self.sessions.store`:
the file path and the computed `to_process` flag (source line
`self.sessions.store(os.path.join(FILE_PATH, "prepared_sessions.json"), to_process)`). -/
def storeCallArgs (path : String) (to_process : Nat) : List PyVal :=
  [.str path, .int to_process]

/-- `SegregationSystemOrchestrator.receive`: dumps the payload to the input
file, computes `to_process` from the operation mode, then calls
`self.sessions.store(path, to_process)`. Python raises `TypeError` at the
call site when the positional arguments do not match the callee's parameter
list, before the callee body runs; otherwise the call would run the `store`
body on the just-dumped payload. -/
def receive (validateFn : List IncomingSession → Bool)
    (payload : List IncomingSession) (mode : Phase) (db : List SessionRow) :
    Except PyError (Bool × List SessionRow) :=
  let to_process : Nat := if mode = .waitSessions then 1 else 0
  if (storeCallArgs "prepared_sessions.json" to_process).length
      = storeParams.length then
    .ok (store validateFn payload db)
  else .error .typeError

/-- The per-iteration environment of the loop: whether the input directory
holds a file (`os.listdir(FILE_PATH)` non-empty) and whether the downstream
dispatch succeeds. -/
structure Env where
  dirNonempty : Bool
  dispatchOk : Bool
deriving DecidableEq

/-- The orchestrator state threaded through one loop iteration: the
in-memory `segregation_config["operation_mode"]`, the `operationMode`
persisted in the configuration file, the intake threshold
(`minimum_session_number`), the two decision-artifact files, the
`prepared_sessions` table, and the log of bundles sent downstream. -/
structure OrchState where
  mode : Phase
  configPhase : Phase
  threshold : Nat
  balancingFile : Option DecisionFile
  coverageFile : Option DecisionFile
  db : List SessionRow
  sent : List (List SessionRow)
deriving DecidableEq

/-- Outcome of one `if`-block of the loop body: fall through to the next
block, `continue` to the next iteration, `return False`, or an uncaught
exception propagating out of `run`. -/
inductive BlockResult where
  | proceed (st : OrchState)
  | cont (st : OrchState)
  | halt (st : OrchState)
  | raise (e : PyError) (st : OrchState)
deriving DecidableEq

/-- Sequencing of the loop body's blocks: only a fall-through reaches the
next block. -/
def seqB (r : BlockResult) (f : OrchState → BlockResult) : BlockResult :=
  match r with
  | .proceed st => f st
  | other => other

/-- The `wait_sessions` block (source lines 192-211, interactive mode):
`continue` while the input directory is empty, count the stored sessions via
`sessions_count`, `continue` while the count is below the threshold, else set
the operation mode to `check_balancing` and fall through. -/
def waitSessionsBlock (env : Env) (st : OrchState) : BlockResult :=
  if st.mode = .waitSessions then
    if env.dirNonempty = false then .cont st
    else if sessionsCount st.db < st.threshold then .cont st
    else .proceed { st with mode := .checkBalancing }
  else .proceed st

/-- The `check_balancing` block (interactive mode): render the balancing
plot, rewrite the configuration file's `operationMode` to
`generate_balancing_outcome`, and `return False` so the Data Analyst can
review. -/
def checkBalancingBlock (st : OrchState) : BlockResult :=
  if st.mode = .checkBalancing then
    .halt { st with configPhase := .generateBalancingOutcome }
  else .proceed st

/-- The `generate_balancing_outcome` block: construct `BalancingReport`
(uncaught exception on a missing/invalid artifact). On `approved`, set the
mode to `check_coverage` and fall through; on rejection, rewrite the
configuration file's `operationMode` to `wait_sessions`, run
`UPDATE prepared_sessions SET to_process = 1;`, and `return False`. -/
def generateBalancingOutcomeBlock (st : OrchState) : BlockResult :=
  if st.mode = .generateBalancingOutcome then
    match balancingReportE st.balancingFile with
    | .error e => .raise e st
    | .ok rep =>
      if rep.approved then .proceed { st with mode := .checkCoverage }
      else .halt { st with configPhase := .waitSessions,
                           db := markAllToProcess st.db }
  else .proceed st

/-- The `check_coverage` block (interactive mode): render the coverage plot,
rewrite the configuration file's `operationMode` to
`generate_coverage_outcome`, and `return False`. -/
def checkCoverageBlock (st : OrchState) : BlockResult :=
  if st.mode = .checkCoverage then
    .halt { st with configPhase := .generateCoverageOutcome }
  else .proceed st

/-- The `generate_coverage_outcome` block: construct `CoverageReport`
(uncaught exception on a missing/invalid artifact). On `approved`, set the
mode to `generate_sets` and fall through. On rejection the entire handler —
config rewrite, `UPDATE ... SET to_process = 1`, `return False` — sits under
`if service_flag:` in the source, so in interactive mode nothing at all
happens and the block falls through with the state unchanged. -/
def generateCoverageOutcomeBlock (st : OrchState) : BlockResult :=
  if st.mode = .generateCoverageOutcome then
    match coverageReportE st.coverageFile with
    | .error e => .raise e st
    | .ok rep =>
      if rep.approved then .proceed { st with mode := .generateSets }
      else .proceed st
  else .proceed st

/-- The `generate_sets` block: `LearningSetsController.save_sets` builds the
Learning Set Bundle (modelled from the spec: the partition of the
not-yet-processed session set, failing with `EmptyInputError` on zero
sessions, since its source file is absent), then
`CommunicationController.send_learning_sets` dispatches it (modelled from the
spec: raises `DispatchError` when downstream delivery fails, its source file
being absent too). After a successful dispatch the source runs
`DELETE FROM prepared_sessions WHERE to_process = 1;`, then
`UPDATE prepared_sessions SET to_process = 1;`, and returns `False`. -/
def generateSetsBlock (env : Env) (st : OrchState) : BlockResult :=
  if st.mode = .generateSets then
    if notYetProcessed st.db = [] then .raise .emptyInputError st
    else if env.dispatchOk = false then .raise .dispatchError st
    else
      .halt { st with
              sent := st.sent ++ [notYetProcessed st.db],
              db := markAllToProcess
                (st.db.filter fun r => !(r.toProcess == some true)) }
  else .proceed st

/-- One iteration of the `while True:` body of
`SegregationSystemOrchestrator.run` in interactive mode (`service_flag =
False`): the six phase blocks in source order, each guarded by its own `if`
on the current operation mode, so a single iteration can cascade through
several phases. A final fall-through re-enters the loop. -/
def runIteration (env : Env) (st : OrchState) : BlockResult :=
  seqB (seqB (seqB (seqB (seqB (waitSessionsBlock env st)
    checkBalancingBlock) generateBalancingOutcomeBlock)
    checkCoverageBlock) generateCoverageOutcomeBlock)
    (generateSetsBlock env)

/-- Environment with a file in the input directory and a healthy downstream
endpoint. -/
def envTT : Env := ⟨true, true⟩

/-- Environment with a file in the input directory and a failing downstream
endpoint. -/
def envTF : Env := ⟨true, false⟩

/-- A well-formed rejected gate decision artifact. -/
def rejectedDecision : DecisionFile := ⟨some false, true⟩

/-- A well-formed approved gate decision artifact. -/
def approvedDecision : DecisionFile := ⟨some true, true⟩

/-- Concrete state: the pipeline persisted in `generate_coverage_outcome`
with a rejected coverage decision waiting. -/
def stC1 : OrchState :=
  ⟨.generateCoverageOutcome, .generateCoverageOutcome, 5, none,
   some rejectedDecision, [⟨"s1", "normal", some true⟩], []⟩

/-- Concrete state: `generate_balancing_outcome` with a rejected balancing
decision and one stored session that is not in the to-process set. -/
def stC3 : OrchState :=
  ⟨.generateBalancingOutcome, .generateBalancingOutcome, 1,
   some rejectedDecision, none, [⟨"s0", "normal", some false⟩], []⟩

/-- The state the balancing-rejection handler produces from `stC3`. -/
def stC3r : OrchState :=
  ⟨.generateBalancingOutcome, .waitSessions, 1,
   some rejectedDecision, none, [⟨"s0", "normal", some true⟩], []⟩

/-- Concrete state: `generate_sets` with a single to-process session. -/
def stC4 : OrchState :=
  ⟨.generateSets, .generateCoverageOutcome, 1, none, none,
   [⟨"a", "normal", some true⟩], []⟩

/-- The state the `generate_sets` block produces from `stC4` after a
successful dispatch. -/
def stC4r : OrchState :=
  ⟨.generateSets, .generateCoverageOutcome, 1, none, none,
   [], [[⟨"a", "normal", some true⟩]]⟩

/-- Concrete state: `generate_sets` with one to-process and one
not-to-process session. -/
def stC2 : OrchState :=
  ⟨.generateSets, .generateCoverageOutcome, 1, none, none,
   [⟨"a", "normal", some true⟩, ⟨"b", "high", some false⟩], []⟩

/-- Concrete state: collecting, one stored session, threshold two. -/
def stC5 : OrchState :=
  ⟨.waitSessions, .waitSessions, 2, none, none,
   [⟨"a", "normal", some true⟩], []⟩

/-- Concrete state: collecting, two stored sessions, threshold two. -/
def stC5b : OrchState :=
  ⟨.waitSessions, .waitSessions, 2, none, none,
   [⟨"a", "normal", some true⟩, ⟨"b", "high", some true⟩], []⟩

/-- A store holding exactly one session row whose `to_process` flag is 0. -/
def dbC6 : List SessionRow := [⟨"a", "normal", some false⟩]

/-- Concrete state: `generate_balancing_outcome` with the decision artifact
file missing. -/
def stC8 : OrchState :=
  ⟨.generateBalancingOutcome, .generateBalancingOutcome, 1, none, none,
   [⟨"s0", "normal", some true⟩], []⟩

/-- A validation function accepting every batch. -/
def validateAll : List IncomingSession → Bool := fun _ => true

/-- A validation function rejecting every batch. -/
def validateNone : List IncomingSession → Bool := fun _ => false

/-- A one-session incoming batch. -/
def batchC9 : List IncomingSession := [⟨"a", "normal"⟩]

section Lemmas

/-- A Python dict assignment never empties the dictionary. -/
theorem dictInsert_ne_nil (d : List (String × Nat)) (k : String) (v : Nat) :
    dictInsert d k v ≠ [] := by
  intro h
  unfold dictInsert at h
  by_cases hany : (d.any fun p => p.1 == k) = true
  · rw [if_pos hany] at h
    rw [List.map_eq_nil_iff] at h
    subst h
    simp at hany
  · rw [if_neg hany] at h
    simp at h

/-- Folding dict assignments over further rows keeps a non-empty dictionary
non-empty. -/
theorem foldl_dictInsert_ne_nil (rows : List (String × Nat)) :
    ∀ d : List (String × Nat), d ≠ [] →
      rows.foldl (fun d row => dictInsert d row.1 row.2) d ≠ [] := by
  induction rows with
  | nil => intro d hd; exact hd
  | cons r rs ih => intro d _; exact ih _ (dictInsert_ne_nil d r.1 r.2)

/-- Marking every row as to-process keeps the identifiers unchanged. -/
theorem map_uuid_markAllToProcess (db : List SessionRow) :
    (markAllToProcess db).map SessionRow.uuid = db.map SessionRow.uuid := by
  unfold markAllToProcess
  rw [List.map_map]
  have :
      (SessionRow.uuid ∘ fun r : SessionRow => { r with toProcess := some true })
        = SessionRow.uuid := funext fun r => rfl
  rw [this]

/-- After marking every row as to-process, every row is in the
not-yet-processed set. -/
theorem notYetProcessed_markAllToProcess (db : List SessionRow) :
    notYetProcessed (markAllToProcess db) = markAllToProcess db := by
  apply List.filter_eq_self.mpr
  intro r hr
  rcases List.mem_map.mp hr with ⟨a, _, rfl⟩
  rfl

/-- In a store whose identifiers are pairwise distinct (the `uuid` primary
key), rows are determined by their identifier. -/
theorem uuid_inj_on_nodup {db : List SessionRow}
    (hnd : (db.map SessionRow.uuid).Nodup) :
    ∀ r ∈ db, ∀ r' ∈ db, r.uuid = r'.uuid → r = r' := by
  intro r hr r' hr' h
  exact List.inj_on_of_nodup_map hnd hr hr' h

end Lemmas

/-- Claim C1 (code evaluated at the failing input): with the pipeline in
`generate_coverage_outcome` and a well-formed rejected coverage decision, the
interactive loop iteration is a no-op — the state, and in particular the
persisted phase, is completely unchanged, so the loop repeats the identical
iteration forever and the persisted phase is never set back to
`wait_sessions`, contradicting the claim that both rejection paths converge
back to collecting. -/
theorem coverage_rejection_loops_forever :
    runIteration envTT stC1 = .proceed stC1 ∧
    stC1.configPhase = .generateCoverageOutcome ∧
    stC1.mode = .generateCoverageOutcome ∧
    coverageReportE stC1.coverageFile = .ok ⟨false⟩ := ⟨rfl, rfl, rfl, rfl⟩

/-- Claim C3 (counterexample): a rejected balancing decision with one stored
session outside the to-process set. Before the rejection the
not-yet-processed set is empty; the rejection handler runs
`UPDATE prepared_sessions SET to_process = 1;`, after which the session has
entered the not-yet-processed set — the set is not preserved. -/
theorem rejection_grows_not_yet_processed_set :
    runIteration envTT stC3 = .halt stC3r ∧
    notYetProcessed stC3.db = [] ∧
    notYetProcessed stC3r.db = [⟨"s0", "normal", some true⟩] ∧
    notYetProcessed stC3r.db ≠ notYetProcessed stC3.db := by
  refine ⟨rfl, rfl, rfl, ?_⟩
  decide

/-- Claim C3 (amended): on a rejected balancing decision the handler deletes
no row and no session leaves the not-yet-processed set, but it marks every
stored session as to-process, so the not-yet-processed set afterwards is the
whole store (a superset of the set before the gate round). -/
theorem rejection_marks_all_sessions (env : Env) (st : OrchState)
    (hmode : st.mode = .generateBalancingOutcome)
    (hrep : balancingReportE st.balancingFile = .ok ⟨false⟩) :
    runIteration env st =
      .halt { st with configPhase := .waitSessions,
                      db := markAllToProcess st.db } ∧
    (markAllToProcess st.db).map SessionRow.uuid = st.db.map SessionRow.uuid ∧
    notYetProcessed (markAllToProcess st.db) = markAllToProcess st.db ∧
    ∀ r ∈ notYetProcessed st.db,
      r.uuid ∈ (notYetProcessed (markAllToProcess st.db)).map SessionRow.uuid := by
  refine ⟨?_, map_uuid_markAllToProcess st.db,
    notYetProcessed_markAllToProcess st.db, ?_⟩
  · simp [runIteration, seqB, waitSessionsBlock, checkBalancingBlock,
      generateBalancingOutcomeBlock, checkCoverageBlock,
      generateCoverageOutcomeBlock, generateSetsBlock, hmode, hrep]
  · intro r hr
    rw [notYetProcessed_markAllToProcess, map_uuid_markAllToProcess]
    have hmem : r ∈ st.db := List.mem_of_mem_filter hr
    exact List.mem_map_of_mem SessionRow.uuid hmem

/-- Claim C3 (amended, witness): the amended statement instantiated at the
concrete rejected round `stC3`. -/
theorem rejection_marks_all_sessions_witness :
    runIteration envTT stC3 =
      .halt { stC3 with configPhase := .waitSessions,
                        db := markAllToProcess stC3.db } ∧
    (markAllToProcess stC3.db).map SessionRow.uuid
      = stC3.db.map SessionRow.uuid ∧
    notYetProcessed (markAllToProcess stC3.db) = markAllToProcess stC3.db ∧
    ∀ r ∈ notYetProcessed stC3.db,
      r.uuid ∈ (notYetProcessed (markAllToProcess stC3.db)).map SessionRow.uuid :=
  rejection_marks_all_sessions envTT stC3 rfl rfl

/-- Claim C8 (code evaluated at the failing input): constructing
`BalancingReport` with the decision artifact missing raises `AttributeError`;
with the artifact present but lacking `approved` or `unbalanced_classes` it
raises `KeyError`. Neither exception is the spec's `MalformedDecisionError`,
and in the orchestrator it propagates out of `run` uncaught — the pipeline
crashes instead of blocking and re-prompting. -/
theorem missing_decision_artifact_is_fatal :
    balancingReportE none = .error .attributeError ∧
    balancingReportE (some ⟨none, true⟩) = .error .keyError ∧
    balancingReportE (some ⟨some true, false⟩) = .error .keyError ∧
    runIteration envTT stC8 = .raise .attributeError stC8 := ⟨rfl, rfl, rfl, rfl⟩

/-- Claim C2: once the `generate_sets` phase completes a successful dispatch,
the bundle (the not-yet-processed session set) is appended to the dispatch
log exactly once and the iteration returns, ending the run — the loop is not
re-entered. The handler then deletes the dispatched rows, so under the
`uuid` primary key no row of the dispatched bundle is in the resulting store:
a restarted orchestrator, whatever phase it resumes from, can only build
bundles from that store and hence never re-sends the dispatched bundle. -/
theorem dispatch_at_most_once (env : Env) (st : OrchState)
    (hmode : st.mode = .generateSets)
    (hok : env.dispatchOk = true)
    (hne : notYetProcessed st.db ≠ [])
    (hnd : (st.db.map SessionRow.uuid).Nodup) :
    runIteration env st =
      .halt { st with
              sent := st.sent ++ [notYetProcessed st.db],
              db := markAllToProcess
                (st.db.filter fun r => !(r.toProcess == some true)) } ∧
    ∀ r ∈ notYetProcessed st.db,
      ∀ r' ∈ markAllToProcess
          (st.db.filter fun r => !(r.toProcess == some true)),
        r'.uuid ≠ r.uuid := by
  constructor
  · simp [runIteration, seqB, waitSessionsBlock, checkBalancingBlock,
      generateBalancingOutcomeBlock, checkCoverageBlock,
      generateCoverageOutcomeBlock, generateSetsBlock, hmode, hok, hne]
  · intro r hr r' hr' hu
    have hrdb : r ∈ st.db := List.mem_of_mem_filter hr
    have hrp : (r.toProcess == some true) = true := by
      unfold notYetProcessed at hr
      exact (List.mem_filter.mp hr).2
    rcases List.mem_map.mp hr' with ⟨r0, hr0, rfl⟩
    have hr0db : r0 ∈ st.db := List.mem_of_mem_filter hr0
    have hr0p : (!(r0.toProcess == some true)) = true :=
      (List.mem_filter.mp hr0).2
    have : r0 = r := uuid_inj_on_nodup hnd r0 hr0db r hrdb hu
    subst this
    rw [hrp] at hr0p
    simp at hr0p

/-- Claim C2 (witness): the at-most-once-dispatch statement instantiated at
the concrete state `stC2`. -/
theorem dispatch_at_most_once_witness :
    runIteration envTT stC2 =
      .halt { stC2 with
              sent := stC2.sent ++ [notYetProcessed stC2.db],
              db := markAllToProcess
                (stC2.db.filter fun r => !(r.toProcess == some true)) } ∧
    ∀ r ∈ notYetProcessed stC2.db,
      ∀ r' ∈ markAllToProcess
          (stC2.db.filter fun r => !(r.toProcess == some true)),
        r'.uuid ≠ r.uuid :=
  dispatch_at_most_once envTT stC2 rfl rfl (by decide) (by decide)

/-- Claim C4 (counterexample): one to-process session, `generate_sets`,
successful dispatch. Afterwards the store is empty: the dispatched session is
not marked `processed` — the row is deleted outright, so no row with its
identifier and a cleared to-process flag exists. -/
theorem dispatched_rows_deleted_not_marked :
    runIteration envTT stC4 = .halt stC4r ∧
    stC4r.db = [] ∧
    ¬ ∃ r ∈ stC4r.db, r.uuid = "a" ∧ r.toProcess = some false := by
  refine ⟨rfl, rfl, ?_⟩
  decide

/-- Claim C4 (amended): in `generate_sets`, when the dispatch fails the
uncaught `DispatchError` propagates and the store and dispatch log are
untouched; when the dispatch is acknowledged, the handler runs and the
dispatched (to-process) rows are removed from the store — cleanup happens
only after acknowledged delivery, but by deletion rather than by marking
`processed=true`. -/
theorem cleanup_only_after_ack (env : Env) (st : OrchState)
    (hmode : st.mode = .generateSets)
    (hne : notYetProcessed st.db ≠ [])
    (hnd : (st.db.map SessionRow.uuid).Nodup) :
    (env.dispatchOk = false → runIteration env st = .raise .dispatchError st) ∧
    (env.dispatchOk = true →
      runIteration env st =
        .halt { st with
                sent := st.sent ++ [notYetProcessed st.db],
                db := markAllToProcess
                  (st.db.filter fun r => !(r.toProcess == some true)) } ∧
      ∀ r ∈ notYetProcessed st.db,
        r ∉ markAllToProcess
          (st.db.filter fun r => !(r.toProcess == some true))) := by
  constructor
  · intro hfail
    simp [runIteration, seqB, waitSessionsBlock, checkBalancingBlock,
      generateBalancingOutcomeBlock, checkCoverageBlock,
      generateCoverageOutcomeBlock, generateSetsBlock, hmode, hfail, hne]
  · intro hok
    refine ⟨(dispatch_at_most_once env st hmode hok hne hnd).1, ?_⟩
    intro r hr hmem
    exact (dispatch_at_most_once env st hmode hok hne hnd).2 r hr r hmem rfl

/-- Claim C4 (amended, witness): the amended statement instantiated at the
concrete state `stC4`, for a failing and for a successful dispatch. -/
theorem cleanup_only_after_ack_witness :
    ((envTF.dispatchOk = false →
        runIteration envTF stC4 = .raise .dispatchError stC4) ∧
      (envTF.dispatchOk = true →
        runIteration envTF stC4 =
          .halt { stC4 with
                  sent := stC4.sent ++ [notYetProcessed stC4.db],
                  db := markAllToProcess
                    (stC4.db.filter fun r => !(r.toProcess == some true)) } ∧
        ∀ r ∈ notYetProcessed stC4.db,
          r ∉ markAllToProcess
            (stC4.db.filter fun r => !(r.toProcess == some true)))) ∧
    ((envTT.dispatchOk = false →
        runIteration envTT stC4 = .raise .dispatchError stC4) ∧
      (envTT.dispatchOk = true →
        runIteration envTT stC4 =
          .halt { stC4 with
                  sent := stC4.sent ++ [notYetProcessed stC4.db],
                  db := markAllToProcess
                    (stC4.db.filter fun r => !(r.toProcess == some true)) } ∧
        ∀ r ∈ notYetProcessed stC4.db,
          r ∉ markAllToProcess
            (stC4.db.filter fun r => !(r.toProcess == some true)))) :=
  ⟨cleanup_only_after_ack envTF stC4 rfl (by decide) (by decide),
   cleanup_only_after_ack envTT stC4 rfl (by decide) (by decide)⟩

/-- Claim C5: in the collecting phase, when the stored session count is
strictly below the threshold the iteration stays in `wait_sessions`
(`continue`), and when the count is at least the threshold (and a file has
arrived in the input directory, the source's preceding guard) the intake
block advances the operation mode to `check_balancing` and the iteration
enters the balancing gate. -/
theorem threshold_monotonicity (env : Env) (st : OrchState)
    (hmode : st.mode = .waitSessions) :
    (sessionsCount st.db < st.threshold → runIteration env st = .cont st) ∧
    (env.dirNonempty = true → st.threshold ≤ sessionsCount st.db →
      waitSessionsBlock env st = .proceed { st with mode := .checkBalancing } ∧
      runIteration env st =
        .halt { st with mode := .checkBalancing,
                        configPhase := .generateBalancingOutcome }) := by
  constructor
  · intro hlt
    by_cases hdir : env.dirNonempty = false
    · simp [runIteration, seqB, waitSessionsBlock, hmode, hdir]
    · simp [runIteration, seqB, waitSessionsBlock, hmode, hdir, hlt]
  · intro hdir hle
    have hblock :
        waitSessionsBlock env st = .proceed { st with mode := .checkBalancing } := by
      simp [waitSessionsBlock, hmode, hdir, Nat.not_lt.mpr hle]
    refine ⟨hblock, ?_⟩
    unfold runIteration
    rw [hblock]
    rfl

/-- Claim C5 (witness): the threshold statement instantiated at one stored
session against threshold two (stays collecting) and at two stored sessions
against threshold two (advances to the balancing check). -/
theorem threshold_monotonicity_witness :
    runIteration envTT stC5 = .cont stC5 ∧
    runIteration envTT stC5b =
      .halt { stC5b with mode := .checkBalancing,
                         configPhase := .generateBalancingOutcome } :=
  ⟨(threshold_monotonicity envTT stC5 rfl).1 (by decide),
   ((threshold_monotonicity envTT stC5b rfl).2 rfl (by decide)).2⟩

/-- Claim C6 (counterexample): a store holding exactly one row whose
`to_process` flag is 0. The not-yet-processed set is empty, yet
`sessions_count` — `SELECT COUNT(*)` with no `WHERE` clause — returns 1:
the intake count is not the count of not-yet-processed sessions. -/
theorem sessions_count_counts_processed_rows :
    sessionsCount dbC6 = 1 ∧
    (notYetProcessed dbC6).length = 0 ∧
    sessionsCount dbC6 ≠ (notYetProcessed dbC6).length := by
  refine ⟨rfl, rfl, ?_⟩
  decide

/-- Claim C6 (amended): `sessions_count` returns the number of all stored
rows and leaves the store unchanged (a pure read); it agrees with the
not-yet-processed count exactly when every stored row is flagged
to-process. -/
theorem sessions_count_is_total_row_count (db : List SessionRow) :
    sessionsCountS db = (sessionsCount db, db) ∧
    (notYetProcessed db).length ≤ sessionsCount db ∧
    (sessionsCount db = (notYetProcessed db).length ↔
      ∀ r ∈ db, r.toProcess = some true) := by
  refine ⟨rfl, List.length_filter_le _ _, ?_⟩
  constructor
  · intro h r hr
    have heq : notYetProcessed db = db :=
      (List.filter_sublist db).eq_of_length h.symm
    have hmem : r ∈ notYetProcessed db := by rw [heq]; exact hr
    have hp : (r.toProcess == some true) = true := by
      unfold notYetProcessed at hmem
      exact (List.mem_filter.mp hmem).2
    exact beq_iff_eq.mp hp
  · intro h
    have heq : notYetProcessed db = db := by
      apply List.filter_eq_self.mpr
      intro r hr
      exact beq_iff_eq.mpr (h r hr)
    rw [heq]
    rfl

/-- Claim C6 (amended, witness): the amended statement instantiated at the
concrete store `dbC6`. -/
theorem sessions_count_is_total_row_count_witness :
    sessionsCountS dbC6 = (sessionsCount dbC6, dbC6) ∧
    (notYetProcessed dbC6).length ≤ sessionsCount dbC6 ∧
    (sessionsCount dbC6 = (notYetProcessed dbC6).length ↔
      ∀ r ∈ dbC6, r.toProcess = some true) :=
  sessions_count_is_total_row_count dbC6

/-- Claim C7 (counterexample): with zero sessions the grouped-label input is
empty, and `retrieve_labels` returns normally with the empty statistic —
it does not fail with `InsufficientDataError` (no such error exists in the
code). -/
theorem empty_snapshot_is_produced :
    retrieveLabelsE [] = .ok [] := rfl

/-- Claim C7 (amended): computing the balancing snapshot never raises; it
returns the dictionary built from the grouped-label rows, which is empty
exactly when zero sessions (zero label groups) are present. -/
theorem snapshot_total_and_empty_iff (rows : List (String × Nat)) :
    retrieveLabelsE rows = .ok ( retrieve_labels rows) ∧
    (retrieve_labels rows = [] ↔ rows = []) := by
  refine ⟨rfl, ?_⟩
  constructor
  · intro h
    cases rows with
    | nil => rfl
    | cons r rs =>
      exfalso
      apply foldl_dictInsert_ne_nil rs (dictInsert [] r.1 r.2)
        (dictInsert_ne_nil [] r.1 r.2)
      exact h
  · intro h
    subst h
    rfl

/-- Claim C7 (amended, witness): the amended statement instantiated at a
single grouped-label row. -/
theorem snapshot_total_and_empty_iff_witness :
    retrieveLabelsE [("normal", 3)] = .ok ( retrieve_labels [("normal", 3)]) ∧
    (retrieve_labels [("normal", 3)] = [] ↔ [("normal", 3)] = []) :=
  snapshot_total_and_empty_iff [("normal", 3)]

/-- Claim C9 (counterexample): a validating one-session batch is stored
successfully, but the inserted row's `to_process` column is NULL (the
dataframe has no such column), so the new row is not in the not-yet-processed
set — the batch is not appended as not-yet-processed. -/
theorem stored_rows_not_flagged_to_process :
    store validateAll batchC9 [] = (true, [⟨"a", "normal", none⟩]) ∧
    notYetProcessed (store validateAll batchC9 []).2 = [] ∧
    (insertRow ⟨"a", "normal"⟩).toProcess = none := by
  refine ⟨?_, ?_, rfl⟩ <;> decide

/-- Claim C9 (amended): when the payload fails schema validation, `store`
returns `False` and the table is untouched; when it validates (and the
identifiers are collision-free), the rows are appended — but with the
`to_process` column left NULL rather than flagged as not-yet-processed. -/
theorem store_rejects_invalid_batches (validateFn : List IncomingSession → Bool)
    (batch : List IncomingSession) (db : List SessionRow) :
    (validateFn batch = false → store validateFn batch db = (false, db)) ∧
    (validateFn batch = true →
      (db.map SessionRow.uuid ++ batch.map IncomingSession.uuid).Nodup →
      store validateFn batch db = (true, db ++ batch.map insertRow) ∧
      ∀ s ∈ batch, (insertRow s).toProcess = none) := by
  constructor
  · intro hv
    simp [store, hv]
  · intro hv hnd
    refine ⟨?_, fun s _ => rfl⟩
    simp [store, hv, hnd]

/-- Claim C9 (amended, witness): the amended statement instantiated at a
rejecting validator and at an accepting validator on the concrete batch. -/
theorem store_rejects_invalid_batches_witness :
    ((validateNone batchC9 = false →
        store validateNone batchC9 [] = (false, [])) ∧
      (validateNone batchC9 = true →
        (List.map SessionRow.uuid [] ++ batchC9.map IncomingSession.uuid).Nodup →
        store validateNone batchC9 [] = (true, [] ++ batchC9.map insertRow) ∧
        ∀ s ∈ batchC9, (insertRow s).toProcess = none)) ∧
    ((validateAll batchC9 = false →
        store validateAll batchC9 [] = (false, [])) ∧
      (validateAll batchC9 = true →
        (List.map SessionRow.uuid [] ++ batchC9.map IncomingSession.uuid).Nodup →
        store validateAll batchC9 [] = (true, [] ++ batchC9.map insertRow) ∧
        ∀ s ∈ batchC9, (insertRow s).toProcess = none)) :=
  ⟨store_rejects_invalid_batches validateNone batchC9 [],
   store_rejects_invalid_batches validateAll batchC9 []⟩

/-- Claim C10: `receive` calls `self.sessions.store(path, to_process)` with
two positional arguments while `store(self, path)` declares one, so every
delivery to `receive` raises `TypeError` at the call site — before the
`store` body runs, hence before any session from the ingestion endpoint is
persisted to the database. -/
theorem receive_always_raises_type_error
    (validateFn : List IncomingSession → Bool)
    (payload : List IncomingSession) (mode : Phase) (db : List SessionRow) :
    receive validateFn payload mode db = .error .typeError ∧
    (storeCallArgs "prepared_sessions.json"
        (if mode = .waitSessions then 1 else 0)).length ≠ storeParams.length := by
  constructor
  · simp [receive, storeCallArgs, storeParams]
  · simp [storeCallArgs, storeParams]

/-- Claim C10 (witness): the statement instantiated at a concrete payload in
each operation mode. -/
theorem receive_always_raises_type_error_witness :
    (receive validateAll batchC9 .waitSessions [] = .error .typeError ∧
      (storeCallArgs "prepared_sessions.json"
          (if Phase.waitSessions = .waitSessions then 1 else 0)).length
        ≠ storeParams.length) ∧
    (receive validateAll batchC9 .generateSets [] = .error .typeError ∧
      (storeCallArgs "prepared_sessions.json"
          (if Phase.generateSets = .waitSessions then 1 else 0)).length
        ≠ storeParams.length) :=
  ⟨receive_always_raises_type_error validateAll batchC9 .waitSessions [],
   receive_always_raises_type_error validateAll batchC9 .generateSets []⟩

end SecurePOS
